import Mathlib

/-!
Shallow embedding of the dotfiles MCP server (src/main.py) and proofs of the
frozen specification claims.

The server's interaction with the outside world is parametrised:
  * the outcome of the one git subprocess call (`git ls-files`) is a
    `CompletedProcess` value supplied to the embedded functions;
  * the filesystem is a map from path strings to `FileOutcome` values
    (missing file, readable UTF-8 content, or a read error message);
  * the user's home directory (`os.path.expanduser("~")`) is a string
    parameter `home`.
Python's string primitives (`str.split`, `str.strip`, `str.startswith`,
`str.endswith`, `"\n".join`) are embedded as structurally recursive Lean
functions on the character lists underlying `String`, mirroring their
documented Python semantics, so that every definition evaluates inside the
kernel. All embedded functions mirror the Python source line by line.
-/

/-- Embedding of `subprocess.CompletedProcess` as produced by
`run_git_command`: exit status, captured standard output and standard error. -/
structure CompletedProcess where
  returncode : Int
  stdout : String
  stderr : String
deriving DecidableEq

/-- Outcome of the operating system observing one path: the path does not
exist (`os.path.exists` is false), or the file is readable UTF-8 text, or
opening or reading it raises an exception whose rendered message is `msg`. -/
inductive FileOutcome where
  | missing
  | content (s : String)
  | readError (msg : String)
deriving DecidableEq

/-- Embedding of `mcp.types.TextContent`: a typed text segment of a tool
response. -/
structure TextContent where
  type : String
  text : String
deriving DecidableEq

/-- Python `str.split(sep)` for a one-character separator, on character
lists: splitting the empty string yields one empty piece, and every
occurrence of the separator starts a new piece. -/
def splitChar (sep : Char) : List Char → List (List Char)
  | [] => [[]]
  | c :: rest =>
    match splitChar sep rest with
    | [] => [[]]
    | h :: t => if c = sep then [] :: h :: t else (c :: h) :: t

/-- The whitespace characters stripped by Python `str.strip()`. -/
def isPyWhitespace (c : Char) : Bool :=
  c = ' ' || c = '\t' || c = '\n' || c = '\r' || c = '\x0b' || c = '\x0c'

/-- Python `str.strip()`: drop whitespace from both ends of the string. -/
def pyStrip (s : String) : String :=
  ⟨(List.dropWhile isPyWhitespace
      ((List.dropWhile isPyWhitespace s.data).reverse)).reverse⟩

/-- Python `s.split("\n")` on strings. -/
def pySplitLines (s : String) : List String :=
  (splitChar '\n' s.data).map (fun l => ⟨l⟩)

/-- Python `s.startswith("/")`. -/
def startsWithSlash (s : String) : Bool :=
  match s.data with
  | [] => false
  | c :: _ => c = '/'

/-- Python `s.endswith("/")`. -/
def endsWithSlash (s : String) : Bool :=
  match s.data.reverse with
  | [] => false
  | c :: _ => c = '/'

/-- Python `sep.join(pieces)`. -/
def joinSep (sep : String) : List String → String
  | [] => ""
  | [s] => s
  | s :: rest => s ++ sep ++ joinSep sep rest

/-- Embedding of Python `posixpath.join` restricted to two arguments, which is
exactly what `os.path.join(os.path.expanduser("~"), filepath)` executes on a
POSIX system: if `path` starts with the separator it replaces `root` entirely;
otherwise the two are concatenated with a separator unless `root` is empty or
already ends with one. -/
def joinPath (root path : String) : String :=
  if startsWithSlash path then path
  else if root = "" || endsWithSlash root then root ++ path
  else root ++ "/" ++ path

/-- Embedding of `list_dotfiles` from src/main.py: run `git ls-files` (its
outcome is the parameter `result`); on non-zero exit return `[]`; otherwise
split stdout on newlines, strip each line, and keep the non-empty ones. -/
def list_dotfiles (result : CompletedProcess) : List String :=
  if result.returncode ≠ 0 then []
  else ((pySplitLines result.stdout).map pyStrip).filter (fun s => s ≠ "")

/-- Embedding of `get_file_content` from src/main.py: join the home directory
with `filepath`, return a not-found message if the path does not exist, the
decoded content on success, and a rendered exception message on a read
failure. -/
def get_file_content (home : String) (fs : String → FileOutcome) (filepath : String) : String :=
  match fs (joinPath home filepath) with
  | FileOutcome.missing => "File not found: " ++ filepath
  | FileOutcome.content s => s
  | FileOutcome.readError msg => "Error reading file: " ++ msg

/-- Embedding of `arguments.get(key, default)` for a string-valued argument
mapping represented as an association list. -/
def dictGetD (args : List (String × String)) (key dflt : String) : String :=
  match args.find? (fun p => p.1 = key) with
  | some p => p.2
  | none => dflt

/-- Embedding of `call_tool` from src/main.py: dispatch on the tool name,
producing exactly the text payloads of the Python source. `git` is the outcome
of the `git ls-files` subprocess call made by `list_dotfiles`, `fs` the state
of the filesystem. -/
def call_tool (home : String) (git : CompletedProcess) (fs : String → FileOutcome)
    (name : String) (arguments : List (String × String)) : List TextContent :=
  if name = "list_dotfiles" then
    [TextContent.mk "text"
      (if list_dotfiles git = [] then
        "No dotfiles found or git repository not accessible."
      else
        "Found " ++ toString (list_dotfiles git).length ++ " dotfiles:\n\n" ++
          joinSep "\n" (list_dotfiles git))]
  else if name = "get_dotfile_content" then
    if dictGetD arguments "filepath" "" = "" then
      [TextContent.mk "text" "Error: filepath is required"]
    else
      [TextContent.mk "text"
        ("Content of " ++ dictGetD arguments "filepath" "" ++ ":\n\n" ++
          get_file_content home fs (dictGetD arguments "filepath" ""))]
  else
    [TextContent.mk "text" ("Unknown tool: " ++ name)]

/-- Model of POSIX kernel path resolution for an absolute path: process the
components left to right, ignoring empty and `.` components and letting `..`
discard the previous component (at the root, `..` stays at the root). This
models what the operating system does with the path handed to `open`. -/
def resolveStep (stack : List String) (c : String) : List String :=
  if c = "" || c = "." then stack
  else if c = ".." then stack.dropLast
  else stack ++ [c]

/-- Resolve an absolute POSIX path string to its canonical form. -/
def resolveAbsPath (p : String) : String :=
  "/" ++ joinSep "/" (((splitChar '/' p.data).map (fun l => ⟨l⟩)).foldl resolveStep [])

/-- C1 counterexample: for the absolute filepath "/etc/passwd",
`os.path.join(home, filepath)` returns the filepath itself, unchanged and not
prefixed by the work-tree root, and `get_file_content` then reads exactly that
absolute location — so an absolute filepath IS used directly as the filesystem
path, contrary to the claim. -/
theorem C1_counterexample :
    joinPath "/home/user" "/etc/passwd" = "/etc/passwd" ∧
    ¬ joinPath "/home/user" "/etc/passwd" = "/home/user" ++ "/" ++ "/etc/passwd" ∧
    get_file_content "/home/user"
      (fun p => if p = "/etc/passwd" then FileOutcome.content "root:x:0:0:root"
                else FileOutcome.missing)
      "/etc/passwd" = "root:x:0:0:root" := by
  decide

/-- C1 (amended): for every RELATIVE filepath (one not starting with "/"),
with the work-tree root non-empty and not slash-terminated,
`get_file_content` resolves the file to read by joining the work-tree root
with the filepath — the resolved location is `home ++ "/" ++ filepath` —
and consults the filesystem only at that joined location. (Absolute
filepaths are excluded: `os.path.join` returns them unchanged, see the
counterexample.) -/
theorem C1_relative_join_locality (home filepath : String) (fs fs' : String → FileOutcome)
    (hrel : startsWithSlash filepath = false) (h0 : home ≠ "")
    (h1 : endsWithSlash home = false) :
    joinPath home filepath = home ++ "/" ++ filepath ∧
    (fs' (home ++ "/" ++ filepath) = fs (home ++ "/" ++ filepath) →
      get_file_content home fs' filepath = get_file_content home fs filepath) := by
  have hj : joinPath home filepath = home ++ "/" ++ filepath := by
    simp [joinPath, hrel, h0, h1]
  refine ⟨hj, fun h => ?_⟩
  simp [get_file_content, hj, h]

/-- C1 witness: instantiating the amended claim at home "/home/user" and
filepath ".bashrc", the resolved location is "/home/user/.bashrc" and the
content stored there is returned. -/
theorem C1_witness :
    joinPath "/home/user" ".bashrc" = "/home/user/.bashrc" ∧
    get_file_content "/home/user"
      (fun p => if p = "/home/user/.bashrc" then FileOutcome.content "export X=1\n"
                else FileOutcome.missing) ".bashrc" = "export X=1\n" := by
  have h := C1_relative_join_locality "/home/user" ".bashrc"
    (fun p => if p = "/home/user/.bashrc" then FileOutcome.content "export X=1\n"
              else FileOutcome.missing)
    (fun p => if p = "/home/user/.bashrc" then FileOutcome.content "export X=1\n"
              else FileOutcome.missing)
    (by decide) (by decide) (by decide)
  exact ⟨h.1.trans (by decide), (h.2 rfl).trans (by decide)⟩

/-- C2: for every tool name and argument mapping, dispatch returns a response
that is a single text payload; no failure mode escapes as anything other than
a text payload, so the transport layer never observes a raised error. -/
theorem C2_invoke_total (home : String) (git : CompletedProcess) (fs : String → FileOutcome)
    (name : String) (arguments : List (String × String)) :
    ∃ t : String, call_tool home git fs name arguments = [TextContent.mk "text" t] := by
  unfold call_tool
  split_ifs <;> exact ⟨_, rfl⟩

/-- C3: for every git invocation outcome, `list_dotfiles` returns the empty
sequence when the exit status is non-zero; otherwise it returns the lines of
standard output split on newlines, each stripped of leading and trailing
whitespace, empty lines dropped, in order (the result is a sublist of the
stripped lines: no re-sorting, no deduplication), and every returned entry is
non-empty and is the strip of some stdout line. -/
theorem C3_list_dotfiles_spec (r : CompletedProcess) :
    (r.returncode ≠ 0 → list_dotfiles r = []) ∧
    (r.returncode = 0 →
      list_dotfiles r = ((pySplitLines r.stdout).map pyStrip).filter (fun s => s ≠ "") ∧
      List.Sublist (list_dotfiles r) ((pySplitLines r.stdout).map pyStrip) ∧
      ∀ s ∈ list_dotfiles r, s ≠ "" ∧ ∃ line ∈ pySplitLines r.stdout, s = pyStrip line) := by
  refine ⟨fun h => by simp [list_dotfiles, h], fun h => ?_⟩
  have hdef : list_dotfiles r = ((pySplitLines r.stdout).map pyStrip).filter (fun s => s ≠ "") := by
    simp [list_dotfiles, h]
  refine ⟨hdef, by rw [hdef]; exact List.filter_sublist _, fun s hs => ?_⟩
  rw [hdef] at hs
  obtain ⟨hmem, hp⟩ := List.mem_filter.1 hs
  refine ⟨by simpa using hp, ?_⟩
  obtain ⟨line, hl, hline⟩ := List.mem_map.1 hmem
  exact ⟨line, hl, hline.symm⟩

/-- C3 witness: on a failed git call the result is empty; on a successful call
with stdout " .bashrc \n\n.vimrc\n" the result is the stripped non-empty
lines in order. -/
theorem C3_witness :
    list_dotfiles ⟨128, "", "fatal: not a git repository"⟩ = [] ∧
    list_dotfiles ⟨0, " .bashrc \n\n.vimrc\n", ""⟩ = [".bashrc", ".vimrc"] := by
  refine ⟨(C3_list_dotfiles_spec ⟨128, "", "fatal: not a git repository"⟩).1 (by decide), ?_⟩
  exact (((C3_list_dotfiles_spec ⟨0, " .bashrc \n\n.vimrc\n", ""⟩).2 rfl).1).trans (by decide)

/-- C4: invoking "list_dotfiles" returns the literal no-dotfiles message
exactly when the tracked-file list is empty, and otherwise the header
"Found N dotfiles:" followed by a blank line and one path per line in
order. -/
theorem C4_list_dotfiles_response (home : String) (git : CompletedProcess)
    (fs : String → FileOutcome) (arguments : List (String × String)) :
    (list_dotfiles git = [] →
      call_tool home git fs "list_dotfiles" arguments =
        [TextContent.mk "text" "No dotfiles found or git repository not accessible."]) ∧
    (list_dotfiles git ≠ [] →
      call_tool home git fs "list_dotfiles" arguments =
        [TextContent.mk "text" ("Found " ++ toString (list_dotfiles git).length ++
          " dotfiles:\n\n" ++ joinSep "\n" (list_dotfiles git))]) := by
  constructor <;> intro h <;> simp [call_tool, h]

/-- C4 witness: with a failing git call the no-dotfiles message is produced;
with two tracked files the counted header and the two paths are produced. -/
theorem C4_witness :
    call_tool "/home/user" ⟨1, "", ""⟩ (fun _ => FileOutcome.missing) "list_dotfiles" [] =
      [TextContent.mk "text" "No dotfiles found or git repository not accessible."] ∧
    call_tool "/home/user" ⟨0, ".bashrc\n.vimrc\n", ""⟩ (fun _ => FileOutcome.missing)
        "list_dotfiles" [] =
      [TextContent.mk "text" "Found 2 dotfiles:\n\n.bashrc\n.vimrc"] := by
  refine ⟨(C4_list_dotfiles_response "/home/user" ⟨1, "", ""⟩
    (fun _ => FileOutcome.missing) []).1 (by decide), ?_⟩
  exact ((C4_list_dotfiles_response "/home/user" ⟨0, ".bashrc\n.vimrc\n", ""⟩
    (fun _ => FileOutcome.missing) []).2 (by decide)).trans (by decide)

/-- C5: for every non-empty filepath whose joined path holds readable UTF-8
content, invoking "get_dotfile_content" returns exactly the header
"Content of {filepath}:" followed by a blank line and the full content. -/
theorem C5_get_content_success (home : String) (git : CompletedProcess)
    (fs : String → FileOutcome) (filepath c : String) (hne : filepath ≠ "")
    (hc : fs (joinPath home filepath) = FileOutcome.content c) :
    call_tool home git fs "get_dotfile_content" [("filepath", filepath)] =
      [TextContent.mk "text" ("Content of " ++ filepath ++ ":\n\n" ++ c)] := by
  have hd : dictGetD [("filepath", filepath)] "filepath" "" = filepath := by
    simp [dictGetD]
  simp [call_tool, hd, hne, get_file_content, hc]

/-- C5 witness: for ".bashrc" containing "export X=1\n" the response is
exactly "Content of .bashrc:\n\nexport X=1\n". -/
theorem C5_witness :
    call_tool "/home/user" ⟨0, ".bashrc\n", ""⟩
      (fun p => if p = "/home/user/.bashrc" then FileOutcome.content "export X=1\n"
                else FileOutcome.missing)
      "get_dotfile_content" [("filepath", ".bashrc")] =
      [TextContent.mk "text" "Content of .bashrc:\n\nexport X=1\n"] := by
  exact (C5_get_content_success "/home/user" ⟨0, ".bashrc\n", ""⟩
    (fun p => if p = "/home/user/.bashrc" then FileOutcome.content "export X=1\n"
              else FileOutcome.missing)
    ".bashrc" "export X=1\n" (by decide) (by decide)).trans (by decide)

/-- C6: for every non-empty filepath whose joined path does not exist,
invoking "get_dotfile_content" returns the not-found message wrapped in the
content header — ordinary text, no structured error. -/
theorem C6_get_content_not_found (home : String) (git : CompletedProcess)
    (fs : String → FileOutcome) (filepath : String) (hne : filepath ≠ "")
    (hm : fs (joinPath home filepath) = FileOutcome.missing) :
    call_tool home git fs "get_dotfile_content" [("filepath", filepath)] =
      [TextContent.mk "text"
        ("Content of " ++ filepath ++ ":\n\n" ++ ("File not found: " ++ filepath))] := by
  have hd : dictGetD [("filepath", filepath)] "filepath" "" = filepath := by
    simp [dictGetD]
  simp [call_tool, hd, hne, get_file_content, hm]

/-- C6 witness: for "nope.txt" absent from the filesystem the response is
exactly "Content of nope.txt:\n\nFile not found: nope.txt". -/
theorem C6_witness :
    call_tool "/home/user" ⟨0, "", ""⟩ (fun _ => FileOutcome.missing)
      "get_dotfile_content" [("filepath", "nope.txt")] =
      [TextContent.mk "text" "Content of nope.txt:\n\nFile not found: nope.txt"] := by
  exact (C6_get_content_not_found "/home/user" ⟨0, "", ""⟩ (fun _ => FileOutcome.missing)
    "nope.txt" (by decide) rfl).trans (by decide)

/-- C7: whenever the argument mapping gives no filepath (the key is absent or
maps to the empty string, i.e. the Python `arguments.get("filepath", "")`
lookup yields ""), invoking "get_dotfile_content" returns exactly
"Error: filepath is required", and the result does not depend on the
filesystem — `get_file_content` is never consulted. -/
theorem C7_missing_filepath (home : String) (git : CompletedProcess)
    (fs : String → FileOutcome) (arguments : List (String × String))
    (h : dictGetD arguments "filepath" "" = "") :
    call_tool home git fs "get_dotfile_content" arguments =
      [TextContent.mk "text" "Error: filepath is required"] ∧
    ∀ fs' : String → FileOutcome,
      call_tool home git fs' "get_dotfile_content" arguments =
        call_tool home git fs "get_dotfile_content" arguments := by
  refine ⟨by simp [call_tool, h], fun fs' => by simp [call_tool, h]⟩

/-- C7 witness: with no arguments at all, and with filepath mapped to the
empty string, the error text is returned. -/
theorem C7_witness :
    call_tool "/home/user" ⟨0, "", ""⟩ (fun _ => FileOutcome.missing)
      "get_dotfile_content" [] =
      [TextContent.mk "text" "Error: filepath is required"] ∧
    call_tool "/home/user" ⟨0, "", ""⟩ (fun _ => FileOutcome.missing)
      "get_dotfile_content" [("filepath", "")] =
      [TextContent.mk "text" "Error: filepath is required"] :=
  ⟨(C7_missing_filepath "/home/user" ⟨0, "", ""⟩ (fun _ => FileOutcome.missing)
      [] (by decide)).1,
   (C7_missing_filepath "/home/user" ⟨0, "", ""⟩ (fun _ => FileOutcome.missing)
      [("filepath", "")] (by decide)).1⟩

/-- C8: for every tool name other than "list_dotfiles" and
"get_dotfile_content", and every argument mapping, dispatch returns exactly
the text "Unknown tool: {name}". -/
theorem C8_unknown_tool (home : String) (git : CompletedProcess)
    (fs : String → FileOutcome) (name : String) (arguments : List (String × String))
    (h1 : name ≠ "list_dotfiles") (h2 : name ≠ "get_dotfile_content") :
    call_tool home git fs name arguments =
      [TextContent.mk "text" ("Unknown tool: " ++ name)] := by
  simp [call_tool, h1, h2]

/-- C8 witness: invoking "unknown_tool" returns exactly
"Unknown tool: unknown_tool". -/
theorem C8_witness :
    call_tool "/home/user" ⟨0, "", ""⟩ (fun _ => FileOutcome.missing) "unknown_tool" [] =
      [TextContent.mk "text" "Unknown tool: unknown_tool"] := by
  exact (C8_unknown_tool "/home/user" ⟨0, "", ""⟩ (fun _ => FileOutcome.missing)
    "unknown_tool" [] (by decide) (by decide)).trans (by decide)

/-- C9: for every tool name and argument mapping, the response consists of
exactly one segment, and that segment is a text segment. -/
theorem C9_single_segment (home : String) (git : CompletedProcess)
    (fs : String → FileOutcome) (name : String) (arguments : List (String × String)) :
    (call_tool home git fs name arguments).length = 1 ∧
    (call_tool home git fs name arguments).map TextContent.type = ["text"] := by
  unfold call_tool
  split_ifs <;> exact ⟨rfl, rfl⟩

/-- C10: `get_dotfile_content` never checks that the filepath is tracked:
whenever the joined path holds content, that content is returned irrespective
of the git outcome (in particular when git tracks nothing), and a filepath
containing ".." components resolves, under POSIX path resolution, to a
location outside the home directory — here "../../etc/passwd" joined under
"/home/user" resolves to "/etc/passwd". -/
theorem C10_no_tracked_check (home : String) (git git' : CompletedProcess)
    (fs : String → FileOutcome) (filepath c : String)
    (hne : filepath ≠ "") (hc : fs (joinPath home filepath) = FileOutcome.content c) :
    (call_tool home git fs "get_dotfile_content" [("filepath", filepath)] =
      [TextContent.mk "text" ("Content of " ++ filepath ++ ":\n\n" ++ c)] ∧
     call_tool home git fs "get_dotfile_content" [("filepath", filepath)] =
      call_tool home git' fs "get_dotfile_content" [("filepath", filepath)]) ∧
    (resolveAbsPath (joinPath "/home/user" "../../etc/passwd") = "/etc/passwd" ∧
     "/home/user".data.isPrefixOf
       (resolveAbsPath (joinPath "/home/user" "../../etc/passwd")).data = false) := by
  have hd : dictGetD [("filepath", filepath)] "filepath" "" = filepath := by
    simp [dictGetD]
  refine ⟨⟨by simp [call_tool, hd, hne, get_file_content, hc], ?_⟩, by decide⟩
  simp [call_tool, hd, hne]

/-- C10 witness: with git tracking nothing at all, the untracked file
"secret.txt" under the home directory is still read and returned. -/
theorem C10_witness :
    call_tool "/home/user" ⟨0, "", ""⟩
      (fun p => if p = "/home/user/secret.txt" then FileOutcome.content "s3cret"
                else FileOutcome.missing)
      "get_dotfile_content" [("filepath", "secret.txt")] =
      [TextContent.mk "text" "Content of secret.txt:\n\ns3cret"] := by
  exact ((C10_no_tracked_check "/home/user" ⟨0, "", ""⟩ ⟨0, ".bashrc", ""⟩
    (fun p => if p = "/home/user/secret.txt" then FileOutcome.content "s3cret"
              else FileOutcome.missing)
    "secret.txt" "s3cret" (by decide) (by decide)).1.1).trans (by decide)
